import Mathlib

/-!
Verification of the three financial calculators of the repository
(`src/src/App.jsx` and the earlier copy `src/unnamed/part_000`):

* `buildBondCashFlows`   — coupon bond cash flows and price,
* `buildMortgageSchedule` — level-payment amortization schedule,
* `buildDividendSeries`  — dividend discount models (no growth, Gordon, two-stage).

The calculators are pure functions on JavaScript numbers.  They are shallowly
embedded here with exact rational arithmetic (`ℚ`): the spec describes all
quantities as reals, and the source applies closed-form real formulas.  The
explicit not-a-number sentinels of `buildDividendSeries` (the `? : NaN`
conditionals) are modelled by `Option ℚ` with `none` for NaN, which the
subsequent arithmetic propagates exactly as IEEE NaN does on the domain the
spec admits (`required > 0`).  For the degenerate-input behaviour (division by
zero producing Infinity/NaN) a separate model `JsNum` of IEEE special values
over exact rationals is given further below.
-/

/-- `Number.EPSILON` of JavaScript, i.e. `2⁻⁵²`, used by the source's `round2`. -/
def numberEpsilon : ℚ := 1 / 2 ^ 52

/-- JavaScript `Math.round` on (exact, finite) values: rounds half toward `+∞`. -/
def jsRound (x : ℚ) : ℤ := ⌊x + 1 / 2⌋

/-- `round2` of `src/src/App.jsx` (line 27):
`Math.round((x + Number.EPSILON) * 100) / 100` — rounding to cents. -/
def round2 (x : ℚ) : ℚ := (jsRound ((x + numberEpsilon) * 100) : ℚ) / 100

/-- A rational is a whole number of cents. -/
def CentMult (x : ℚ) : Prop := ∃ k : ℤ, x = (k : ℚ) / 100

/-- One cash-flow point of the bond chart (`flows` entries of the source). -/
structure CashFlowPoint where
  period : ℚ
  coupon : ℚ
  other : ℚ
  total : ℚ
deriving DecidableEq

/-- Result record of `buildBondCashFlows`. -/
structure BondResult where
  flows : List CashFlowPoint
  price : ℚ
  c : ℚ
  r : ℚ
  n : ℕ
deriving DecidableEq

/-- One row of the amortization schedule (`rows` entries of the source). -/
structure AmortRow where
  month : ℕ
  interest : ℚ
  principal : ℚ
  total : ℚ
  balance : ℚ
deriving DecidableEq

/-- Result record of `buildMortgageSchedule`. -/
structure MortgageResult where
  rows : List AmortRow
  pmt : ℚ
deriving DecidableEq

/-- One entry of the dividend projection series (`data` entries of the source). -/
structure DividendSeriesPoint where
  year : ℕ
  constDiv : ℚ
  constGrow : ℚ
  twoStage : ℚ
deriving DecidableEq

/-- Result record of `buildDividendSeries`.  The two growth-model prices are
`Option ℚ`: `none` models the not-a-number sentinel of the source. -/
structure DividendResult where
  data : List DividendSeriesPoint
  priceNoGrowth : ℚ
  priceGordon : Option ℚ
  priceTwoStage : Option ℚ
deriving DecidableEq

/-- State of the constant-growth loop of `buildDividendSeries`
(`App.jsx` lines 204–209): `constGrowthAt D0 g k` is the value of the mutable
`Dt` when the entry for year `k+1` is pushed (`Dt` starts at `D0*(1+g)` and is
multiplied by `(1+g)` on every later iteration). -/
def constGrowthAt (D0 g : ℚ) : ℕ → ℚ
  | 0 => D0 * (1 + g)
  | k + 1 => constGrowthAt D0 g k * (1 + g)

/-- State of the two-stage loop of `buildDividendSeries` (`App.jsx` lines
210–218): value of `Dt` when the entry for year `k+1` is pushed.  At loop
index `t = k+2` the source multiplies by `1 + (t <= shortYears ? gShort : gLong)`. -/
def twoStageAt (D0 gShort gLong : ℚ) (shortYears : ℕ) : ℕ → ℚ
  | 0 => D0 * (1 + gShort)
  | k + 1 => twoStageAt D0 gShort gLong shortYears k *
      (1 + (if k + 2 ≤ shortYears then gShort else gLong))

/-- The `constGrowth` array built by the loop of `App.jsx` lines 204–209
(values only; the `year` keys are re-created when `data` is assembled). -/
def constGrowthList (D0 g : ℚ) (horizonYears : ℕ) : List ℚ :=
  (List.range horizonYears).map (constGrowthAt D0 g)

/-- The `twoStage` array built by the loop of `App.jsx` lines 210–218. -/
def twoStageList (D0 gShort gLong : ℚ) (shortYears horizonYears : ℕ) : List ℚ :=
  (List.range horizonYears).map (twoStageAt D0 gShort gLong shortYears)

namespace App

/-- `buildBondCashFlows` of `src/src/App.jsx` (lines 159–172).
`years` and `freq` are the integer inputs; the loop `for t = 1..n` becomes a
map over `List.range n` with `t = k+1`; the `reduce((a,b) => a+b, 0)` over the
per-period present values becomes `List.sum`. -/
def buildBondCashFlows (face couponRate ytm : ℚ) (years freq : ℕ) : BondResult :=
  let n := years * freq
  let c := couponRate * face / (freq : ℚ)
  let r := ytm / (freq : ℚ)
  let flows := (List.range n).map (fun k =>
    let t := k + 1
    let cf := if t = n then c + face else c
    { period := (t : ℚ) / (freq : ℚ), coupon := c,
      other := if t = n then face else 0, total := cf })
  let pvCoupons := ((List.range n).map (fun k => c / (1 + r) ^ (k + 1))).sum
  let pvRedemption := face / (1 + r) ^ n
  { flows := flows, price := pvCoupons + pvRedemption, c := c, r := r, n := n }

/-- Body of the loop of `buildMortgageSchedule` (`App.jsx` lines 183–198) for
month `t`, given the balance `bal` entering the month: produces the pushed row
and the updated balance. -/
def mortgageStep (pmt i : ℚ) (n t : ℕ) (bal : ℚ) : AmortRow × ℚ :=
  let interest1 := round2 (bal * i)
  let principal1 := round2 (pmt - interest1)
  let principalPaid := if t = n then round2 bal else principal1
  let interest := if t = n then round2 (pmt - principalPaid) else interest1
  let bal2 := round2 (bal - principalPaid)
  ({ month := t, interest := interest, principal := principalPaid,
     total := round2 (interest + principalPaid), balance := max bal2 0 }, bal2)

/-- The loop of `buildMortgageSchedule` after `t` iterations: the rows pushed
so far and the current mutable balance (which starts at `principal`). -/
def mortgageState (pmt i : ℚ) (n : ℕ) (principal : ℚ) : ℕ → List AmortRow × ℚ
  | 0 => ([], principal)
  | t + 1 =>
    let s := mortgageState pmt i n principal t
    let st := mortgageStep pmt i n (t + 1) s.2
    (s.1 ++ [st.1], st.2)

/-- `buildMortgageSchedule` of `src/src/App.jsx` (lines 175–200):
`m = 12`, `n = years*12`, `i = rate/12`,
`pmt = round2(i*principal / (1 - (1+i)^(-n)))`, then the month loop. -/
def buildMortgageSchedule (principal rate : ℚ) (years : ℕ) : MortgageResult :=
  let m : ℕ := 12
  let n := years * m
  let i := rate / (m : ℚ)
  let pmt := round2 ((i * principal) / (1 - (1 + i) ^ (-(n : ℤ))))
  { rows := (mortgageState pmt i n principal n).1, pmt := pmt }

/-- `buildDividendSeries` of `src/src/App.jsx` (lines 203–239).  The two
growth loops are embedded through their state functions `constGrowthAt` /
`twoStageAt`; `data` indexes the two arrays exactly as the source does
(`constGrowth[idx].constGrow`, `twoStage[idx].twoStage`), here with `getD`.
`NaN` is `none`; the arithmetic `TV / pow(...)` and `cf1 + pvTV` that
propagates the NaN sentinel becomes `Option.map`. -/
def buildDividendSeries (D0 required gConst gShort gLong : ℚ)
    (shortYears horizonYears : ℕ) : DividendResult :=
  let data := (List.range horizonYears).map (fun idx =>
    { year := idx + 1, constDiv := D0,
      constGrow := (constGrowthList D0 gConst horizonYears).getD idx 0,
      twoStage := (twoStageList D0 gShort gLong shortYears horizonYears).getD idx 0 })
  let priceNoGrowth := D0 / required
  let priceGordon : Option ℚ :=
    if gConst < required then some (D0 * (1 + gConst) / (required - gConst)) else none
  let cf1 := ((List.range shortYears).map (fun k =>
    D0 * (1 + gShort) ^ (k + 1) / (1 + required) ^ (k + 1))).sum
  let D_T1 := D0 * (1 + gShort) ^ shortYears * (1 + gLong)
  let TV : Option ℚ :=
    if gLong < required then some (D_T1 / (required - gLong)) else none
  let pvTV := TV.map (fun tv => tv / (1 + required) ^ shortYears)
  let priceTwoStage := pvTV.map (fun pv => cf1 + pv)
  { data := data, priceNoGrowth := priceNoGrowth,
    priceGordon := priceGordon, priceTwoStage := priceTwoStage }

end App

namespace Part000

/-- `buildBondCashFlows` of `src/unnamed/part_000` (lines 37–50) — textually
identical formulas to the `App.jsx` version. -/
def buildBondCashFlows (face couponRate ytm : ℚ) (years freq : ℕ) : BondResult :=
  let n := years * freq
  let c := couponRate * face / (freq : ℚ)
  let r := ytm / (freq : ℚ)
  let flows := (List.range n).map (fun k =>
    let t := k + 1
    let cf := if t = n then c + face else c
    { period := (t : ℚ) / (freq : ℚ), coupon := c,
      other := if t = n then face else 0, total := cf })
  let pvCoupons := ((List.range n).map (fun k => c / (1 + r) ^ (k + 1))).sum
  let pvRedemption := face / (1 + r) ^ n
  { flows := flows, price := pvCoupons + pvRedemption, c := c, r := r, n := n }

/-- `buildDividendSeries` of `src/unnamed/part_000` (lines 70–101).  Differs
from the `App.jsx` version only in that the constant-dividend column is first
materialised as an array `constant` of `D0`s and `data` reads
`constant[idx].constDiv` back out of it (here: `getD` on the list of values). -/
def buildDividendSeries (D0 required gConst gShort gLong : ℚ)
    (shortYears horizonYears : ℕ) : DividendResult :=
  let constantL := (List.range horizonYears).map (fun _ => D0)
  let data := (List.range horizonYears).map (fun idx =>
    { year := idx + 1, constDiv := constantL.getD idx 0,
      constGrow := (constGrowthList D0 gConst horizonYears).getD idx 0,
      twoStage := (twoStageList D0 gShort gLong shortYears horizonYears).getD idx 0 })
  let priceNoGrowth := D0 / required
  let priceGordon : Option ℚ :=
    if gConst < required then some (D0 * (1 + gConst) / (required - gConst)) else none
  let cf1 := ((List.range shortYears).map (fun k =>
    D0 * (1 + gShort) ^ (k + 1) / (1 + required) ^ (k + 1))).sum
  let D_T1 := D0 * (1 + gShort) ^ shortYears * (1 + gLong)
  let TV : Option ℚ :=
    if gLong < required then some (D_T1 / (required - gLong)) else none
  let pvTV := TV.map (fun tv => tv / (1 + required) ^ shortYears)
  let priceTwoStage := pvTV.map (fun pv => cf1 + pv)
  { data := data, priceNoGrowth := priceNoGrowth,
    priceGordon := priceGordon, priceTwoStage := priceTwoStage }

end Part000

/-!
IEEE-special-value model for the degenerate-input behaviour.  A JavaScript
number is either NaN, `±Infinity`, or a finite value (idealised as an exact
rational — overflow and rounding of the binary64 format are not modelled, only
the special-value propagation rules, which is all the degenerate inputs of the
spec exercise).  Signed zero is not distinguished from zero. -/

/-- A JavaScript number: NaN, `+Infinity`, `-Infinity` or finite. -/
inductive JsNum where
  | nan : JsNum
  | inf : JsNum
  | ninf : JsNum
  | fin : ℚ → JsNum
deriving DecidableEq

namespace JsNum

/-- IEEE addition on `JsNum`. -/
def add : JsNum → JsNum → JsNum
  | nan, _ => nan
  | _, nan => nan
  | inf, ninf => nan
  | ninf, inf => nan
  | inf, _ => inf
  | _, inf => inf
  | ninf, _ => ninf
  | _, ninf => ninf
  | fin a, fin b => fin (a + b)

/-- IEEE negation on `JsNum`. -/
def neg : JsNum → JsNum
  | nan => nan
  | inf => ninf
  | ninf => inf
  | fin a => fin (-a)

/-- IEEE subtraction on `JsNum` (`x - y = x + (-y)` exactly in IEEE). -/
def sub (x y : JsNum) : JsNum := add x (neg y)

/-- IEEE multiplication on `JsNum` (`±Infinity × 0 = NaN`). -/
def mul : JsNum → JsNum → JsNum
  | nan, _ => nan
  | _, nan => nan
  | inf, inf => inf
  | inf, ninf => ninf
  | ninf, inf => ninf
  | ninf, ninf => inf
  | inf, fin b => if 0 < b then inf else if b < 0 then ninf else nan
  | fin a, inf => if 0 < a then inf else if a < 0 then ninf else nan
  | ninf, fin b => if 0 < b then ninf else if b < 0 then inf else nan
  | fin a, ninf => if 0 < a then ninf else if a < 0 then inf else nan
  | fin a, fin b => fin (a * b)

/-- IEEE division on `JsNum`: finite/0 is `±Infinity` by sign and `0/0 = NaN`;
`Infinity/Infinity = NaN`; finite/`±Infinity` is `0`. -/
def div : JsNum → JsNum → JsNum
  | nan, _ => nan
  | _, nan => nan
  | inf, inf => nan
  | inf, ninf => nan
  | ninf, inf => nan
  | ninf, ninf => nan
  | inf, fin b => if 0 ≤ b then inf else ninf
  | ninf, fin b => if 0 ≤ b then ninf else inf
  | fin _, inf => fin 0
  | fin _, ninf => fin 0
  | fin a, fin b =>
    if b = 0 then (if 0 < a then inf else if a < 0 then ninf else nan)
    else fin (a / b)

/-- JavaScript `Math.pow` restricted to integer exponents:
`pow(x, 0) = 1` for every `x` (NaN and `±Infinity` included);
`pow(0, -n) = Infinity`; `pow(±Infinity, -n) = 0`;
`pow(-Infinity, n)` follows the parity of `n`. -/
def powInt (x : JsNum) (e : ℤ) : JsNum :=
  if e = 0 then fin 1
  else
    match x with
    | nan => nan
    | inf => if 0 < e then inf else fin 0
    | ninf => if 0 < e then (if e % 2 = 0 then inf else ninf) else fin 0
    | fin a =>
      if 0 < e then fin (a ^ e.toNat)
      else if a = 0 then inf else fin ((a ^ (-e).toNat)⁻¹)

/-- JavaScript `Math.max` on two arguments (`NaN` absorbs). -/
def jsMax : JsNum → JsNum → JsNum
  | nan, _ => nan
  | _, nan => nan
  | inf, _ => inf
  | _, inf => inf
  | ninf, b => b
  | a, ninf => a
  | fin a, fin b => fin (max a b)

/-- `round2` of the source lifted to `JsNum`: `Math.round` maps NaN to NaN and
`±Infinity` to itself, and so does the whole `round2` pipeline. -/
def round2J : JsNum → JsNum
  | nan => nan
  | inf => inf
  | ninf => ninf
  | fin a => fin (round2 a)

end JsNum

/-- Bond flow entry over `JsNum`. -/
structure JsFlow where
  period : JsNum
  coupon : JsNum
  other : JsNum
  total : JsNum
deriving DecidableEq

/-- Bond result over `JsNum`. -/
structure JsBondResult where
  flows : List JsFlow
  price : JsNum
  c : JsNum
  r : JsNum
  n : ℕ
deriving DecidableEq

/-- `buildBondCashFlows` of `src/src/App.jsx` (lines 159–172) over the
IEEE-special-value model `JsNum`, used to settle what the code does on the
degenerate inputs `freq = 0` and `years = 0` (the finite inputs `face`,
`couponRate`, `ytm` enter as exact rationals; `reduce((a,b) => a+b, 0)`
becomes `foldl add (fin 0)`). -/
def jsBuildBondCashFlows (face couponRate ytm : ℚ) (years freq : ℕ) : JsBondResult :=
  let n := years * freq
  let c := JsNum.div (JsNum.mul (.fin couponRate) (.fin face)) (.fin (freq : ℚ))
  let r := JsNum.div (.fin ytm) (.fin (freq : ℚ))
  let flows := (List.range n).map (fun k =>
    let t := k + 1
    let cf := if t = n then JsNum.add c (.fin face) else c
    { period := JsNum.div (.fin (t : ℚ)) (.fin (freq : ℚ)), coupon := c,
      other := if t = n then JsNum.fin face else .fin 0, total := cf })
  let pvCoupons := ((List.range n).map (fun k =>
    JsNum.div c (JsNum.powInt (JsNum.add (.fin 1) r) (k + 1)))).foldl JsNum.add (.fin 0)
  let pvRedemption := JsNum.div (.fin face) (JsNum.powInt (JsNum.add (.fin 1) r) (n : ℤ))
  { flows := flows, price := JsNum.add pvCoupons pvRedemption, c := c, r := r, n := n }

/-- The level-payment computation of `buildMortgageSchedule`
(`src/src/App.jsx` lines 176–179) over the IEEE-special-value model:
`pmt = round2((i * principal) / (1 - Math.pow(1 + i, -n)))` with `i = rate/12`,
`n = years*12`, used to settle the `rate = 0` division-by-zero behaviour. -/
def jsMortgagePmt (principal rate : ℚ) (years : ℕ) : JsNum :=
  let m : ℕ := 12
  let n := years * m
  let i := JsNum.div (.fin rate) (.fin (m : ℚ))
  JsNum.round2J (JsNum.div (JsNum.mul i (.fin principal))
    (JsNum.sub (.fin 1) (JsNum.powInt (JsNum.add (.fin 1) i) (-(n : ℤ)))))

/-! Generic list lemmas for the `Array.from({length: H}, gen)` idiom. -/

lemma getD_map_range {α : Type} (f : ℕ → α) {H k : ℕ} (hk : k < H) (d : α) :
    ((List.range H).map f).getD k d = f k := by
  rw [List.getD_eq_getElem?_getD]
  simp [List.getElem?_map, List.getElem?_range hk]

lemma listSum_range_map (f : ℕ → ℚ) :
    ∀ n, ((List.range n).map f).sum = ∑ k in Finset.range n, f k
  | 0 => by simp
  | n + 1 => by
    rw [List.range_succ, List.map_append, List.sum_append, Finset.sum_range_succ,
      listSum_range_map f n]
    simp

/-! Exact facts about `round2`, the cent-rounding helper of the source. -/

lemma centMult_round2 (x : ℚ) : CentMult (round2 x) :=
  ⟨jsRound ((x + numberEpsilon) * 100), rfl⟩

lemma round2_eq_of_centMult {x : ℚ} (h : CentMult x) : round2 x = x := by
  obtain ⟨k, rfl⟩ := h
  unfold round2 jsRound numberEpsilon
  have h1 : ((k : ℚ) / 100 + 1 / 2 ^ 52) * 100 + 1 / 2
      = (100 / 2 ^ 52 + 1 / 2 : ℚ) + (k : ℚ) := by ring
  have h2 : ⌊(100 / 2 ^ 52 + 1 / 2 : ℚ)⌋ = 0 :=
    Int.floor_eq_zero_iff.mpr (Set.mem_Ico.mpr ⟨by norm_num, by norm_num⟩)
  rw [h1, Int.floor_add_int, h2]
  norm_num

lemma centMult_sub {a b : ℚ} (ha : CentMult a) (hb : CentMult b) : CentMult (a - b) := by
  obtain ⟨j, rfl⟩ := ha
  obtain ⟨k, rfl⟩ := hb
  exact ⟨j - k, by push_cast; ring⟩

/-- Rounding the residue `x - round2 x` to cents gives exactly `0`: the final
balance adjustment of the mortgage schedule zeroes out. -/
lemma round2_sub_round2_self (x : ℚ) : round2 (x - round2 x) = 0 := by
  unfold round2 jsRound
  have h1 : (x - (⌊(x + numberEpsilon) * 100 + 1 / 2⌋ : ℚ) / 100 + numberEpsilon) * 100 + 1 / 2
      = Int.fract ((x + numberEpsilon) * 100 + 1 / 2) := by
    rw [← Int.self_sub_floor]
    ring
  rw [h1, Int.floor_fract]
  norm_num

/-! Invariants of the mortgage loop. -/

lemma mortgageStep_sums {pmt : ℚ} (hc : CentMult pmt) (i : ℚ) (n t : ℕ) (bal : ℚ) :
    (App.mortgageStep pmt i n t bal).1.interest + (App.mortgageStep pmt i n t bal).1.principal = pmt
    ∧ (App.mortgageStep pmt i n t bal).1.total = pmt := by
  by_cases h : t = n
  · simp only [App.mortgageStep, h, if_true, eq_self_iff_true]
    have e1 : round2 (pmt - round2 bal) = pmt - round2 bal :=
      round2_eq_of_centMult (centMult_sub hc (centMult_round2 _))
    have e2 : pmt - round2 bal + round2 bal = pmt := by ring
    rw [e1, e2]
    exact ⟨rfl, round2_eq_of_centMult hc⟩
  · simp only [App.mortgageStep, if_neg h]
    have e1 : round2 (pmt - round2 (bal * i)) = pmt - round2 (bal * i) :=
      round2_eq_of_centMult (centMult_sub hc (centMult_round2 _))
    have e2 : round2 (bal * i) + (pmt - round2 (bal * i)) = pmt := by ring
    rw [e1, e2]
    exact ⟨rfl, round2_eq_of_centMult hc⟩

lemma mortgageState_rows {pmt : ℚ} (hc : CentMult pmt) (i : ℚ) (n : ℕ) (principal : ℚ) :
    ∀ t, ∀ row ∈ (App.mortgageState pmt i n principal t).1,
      row.interest + row.principal = pmt ∧ row.total = pmt
  | 0 => by simp [App.mortgageState]
  | t + 1 => by
    intro row hrow
    simp only [App.mortgageState, List.mem_append, List.mem_singleton] at hrow
    rcases hrow with h | h
    · exact mortgageState_rows hc i n principal t row h
    · subst h
      exact mortgageStep_sums hc i n (t + 1) _

lemma mortgageState_length (pmt i : ℚ) (n : ℕ) (principal : ℚ) :
    ∀ t, (App.mortgageState pmt i n principal t).1.length = t
  | 0 => rfl
  | t + 1 => by
    simp [App.mortgageState, mortgageState_length pmt i n principal t]

lemma mortgageState_getLast (pmt i : ℚ) (n : ℕ) (principal : ℚ) (t : ℕ) :
    (App.mortgageState pmt i n principal (t + 1)).1.getLast? =
      some (App.mortgageStep pmt i n (t + 1) ((App.mortgageState pmt i n principal t).2)).1 := by
  simp [App.mortgageState, List.getLast?_concat]

/-- The loop body at the final month `t = n`: the override pays off the
rounded entering balance, back-derives interest (exactly, since all quantities
are whole cents), totals to `pmt`, and the updated balance rounds to `0`. -/
lemma mortgageStep_final {pmt : ℚ} (hc : CentMult pmt) (i : ℚ) (n : ℕ) (bal : ℚ) :
    (App.mortgageStep pmt i n n bal).1 =
      { month := n, interest := pmt - round2 bal, principal := round2 bal,
        total := pmt, balance := 0 } := by
  simp only [App.mortgageStep, if_true, eq_self_iff_true]
  have e1 : round2 (pmt - round2 bal) = pmt - round2 bal :=
    round2_eq_of_centMult (centMult_sub hc (centMult_round2 _))
  have e2 : pmt - round2 bal + round2 bal = pmt := by ring
  rw [e1, e2, round2_eq_of_centMult hc, round2_sub_round2_self]
  simp

/-- The last row of a full `n = t+1` month schedule. -/
lemma mortgageState_getLast_full {pmt : ℚ} (hc : CentMult pmt) (i principal : ℚ) (t : ℕ) :
    (App.mortgageState pmt i (t + 1) principal (t + 1)).1.getLast? =
      some { month := t + 1,
             interest := pmt - round2 ((App.mortgageState pmt i (t + 1) principal t).2),
             principal := round2 ((App.mortgageState pmt i (t + 1) principal t).2),
             total := pmt, balance := 0 } := by
  rw [mortgageState_getLast, mortgageStep_final hc]

/-- The discounted short-stage dividends plus the discounted Gordon terminal
value telescope to the Gordon price when both stages grow at the same rate. -/
lemma growing_annuity_plus_terminal (D0 R g : ℚ) (hg : g < R) (hR : 0 < R) :
    ∀ T : ℕ, (∑ k in Finset.range T, D0 * (1 + g) ^ (k + 1) / (1 + R) ^ (k + 1))
      + (D0 * (1 + g) ^ T * (1 + g) / (R - g)) / (1 + R) ^ T = D0 * (1 + g) / (R - g) := by
  have h1R : (1 : ℚ) + R ≠ 0 := by linarith
  have hRg : R - g ≠ 0 := sub_ne_zero.mpr (ne_of_gt hg)
  intro T
  induction T with
  | zero => simp
  | succ T IH =>
    have hpow : ((1 : ℚ) + R) ^ T ≠ 0 := pow_ne_zero _ h1R
    rw [Finset.sum_range_succ]
    have hS : ∑ k in Finset.range T, D0 * (1 + g) ^ (k + 1) / (1 + R) ^ (k + 1)
        = D0 * (1 + g) / (R - g) - (D0 * (1 + g) ^ T * (1 + g) / (R - g)) / (1 + R) ^ T := by
      linarith [IH]
    rw [hS]
    field_simp
    ring

/-- C1: for positive integer `years` and `freq`, the bond price equals the sum
of the per-period coupons discounted at `(1+r)^-t` for `t = 1..n` plus the
face value discounted at `(1+r)^-n`, and the cash-flow point for the final
period has total `c + face` while every earlier point has total `c`. -/
theorem bond_price_and_final_flow (face couponRate ytm : ℚ) (years freq : ℕ)
    (hy : 0 < years) (hf : 0 < freq) :
    (App.buildBondCashFlows face couponRate ytm years freq).price
      = (∑ t in Finset.range (years * freq),
          (App.buildBondCashFlows face couponRate ytm years freq).c
            / (1 + (App.buildBondCashFlows face couponRate ytm years freq).r) ^ (t + 1))
        + face / (1 + (App.buildBondCashFlows face couponRate ytm years freq).r) ^ (years * freq)
    ∧ ∀ k, k < years * freq →
        ((App.buildBondCashFlows face couponRate ytm years freq).flows.getD k
            { period := 0, coupon := 0, other := 0, total := 0 }).total
          = if k + 1 = years * freq
            then (App.buildBondCashFlows face couponRate ytm years freq).c + face
            else (App.buildBondCashFlows face couponRate ytm years freq).c := by
  constructor
  · simp only [App.buildBondCashFlows]
    rw [listSum_range_map]
  · intro k hk
    simp only [App.buildBondCashFlows]
    rw [getD_map_range _ hk]

/-- C5: with a common growth rate `g = gShort = gLong = gConst` below the
required return, the two-stage price collapses to the Gordon price, for every
`shortYears` (in particular when it exceeds the horizon). -/
theorem two_stage_reduces_to_gordon (D0 required g : ℚ) (shortYears horizonYears : ℕ)
    (hD : 0 ≤ D0) (hR : 0 < required) (hg : g < required) :
    (App.buildDividendSeries D0 required g g g shortYears horizonYears).priceTwoStage
      = (App.buildDividendSeries D0 required g g g shortYears horizonYears).priceGordon := by
  simp only [App.buildDividendSeries, if_pos hg, Option.map_some']
  rw [Option.some.injEq, listSum_range_map]
  exact growing_annuity_plus_terminal D0 required g hg hR shortYears

/-- C7: the three result sequences have lengths fixed by their horizon/term
inputs: `years*freq` bond cash-flow points, `years*12` amortization rows, and
`horizonYears` dividend series points. -/
theorem sequence_lengths_fixed
    (face couponRate ytm principal rate D0 required gConst gShort gLong : ℚ)
    (years freq myears shortYears horizonYears : ℕ)
    (h1 : 0 < years) (h2 : 0 < freq) (h3 : 0 < myears) (h4 : 0 < horizonYears) :
    (App.buildBondCashFlows face couponRate ytm years freq).flows.length = years * freq
    ∧ (App.buildMortgageSchedule principal rate myears).rows.length = myears * 12
    ∧ (App.buildDividendSeries D0 required gConst gShort gLong
        shortYears horizonYears).data.length = horizonYears := by
  refine ⟨?_, ?_, ?_⟩
  · simp [App.buildBondCashFlows]
  · simp only [App.buildMortgageSchedule]
    exact mortgageState_length _ _ _ _ _
  · simp [App.buildDividendSeries]

/-- C8: each calculator is a pure function of its inputs — two invocations
with identical inputs give identical results (the embedding is a function of
the input record only; the source reads no state besides parameters and
locals). -/
theorem calculators_deterministic
    (face couponRate ytm principal rate D0 required gConst gShort gLong : ℚ)
    (years freq myears shortYears horizonYears : ℕ) :
    App.buildBondCashFlows face couponRate ytm years freq
        = App.buildBondCashFlows face couponRate ytm years freq
    ∧ App.buildMortgageSchedule principal rate myears
        = App.buildMortgageSchedule principal rate myears
    ∧ App.buildDividendSeries D0 required gConst gShort gLong shortYears horizonYears
        = App.buildDividendSeries D0 required gConst gShort gLong shortYears horizonYears :=
  ⟨rfl, rfl, rfl⟩

/-- C9: the `App.jsx` and `part_000` implementations of `buildDividendSeries`
and `buildBondCashFlows` agree on every input. -/
theorem implementations_agree
    (face couponRate ytm D0 required gConst gShort gLong : ℚ)
    (years freq shortYears horizonYears : ℕ) :
    App.buildDividendSeries D0 required gConst gShort gLong shortYears horizonYears
        = Part000.buildDividendSeries D0 required gConst gShort gLong shortYears horizonYears
    ∧ App.buildBondCashFlows face couponRate ytm years freq
        = Part000.buildBondCashFlows face couponRate ytm years freq := by
  constructor
  · simp only [App.buildDividendSeries, Part000.buildDividendSeries, DividendResult.mk.injEq,
      eq_self_iff_true, and_true, true_and]
    apply List.map_congr_left
    intro idx hidx
    rw [getD_map_range (fun _ => D0) (List.mem_range.mp hidx)]
  · rfl

/-- C2: every amortization row reconciles `interest + principal` to the level
payment exactly, and the final row pays off the rounded balance entering month
`n = years*12`, back-derives its interest as `pmt` minus that principal
portion, and ends with remaining balance exactly `0`. -/
theorem mortgage_rows_reconcile_and_final_zero (principal rate : ℚ) (years : ℕ)
    (hp : 0 < principal) (hr : 0 < rate) (hy : 0 < years) :
    (∀ row ∈ (App.buildMortgageSchedule principal rate years).rows,
        row.interest + row.principal = (App.buildMortgageSchedule principal rate years).pmt)
    ∧ (App.buildMortgageSchedule principal rate years).rows.getLast? =
        some { month := years * 12,
               interest := (App.buildMortgageSchedule principal rate years).pmt
                 - round2 ((App.mortgageState (App.buildMortgageSchedule principal rate years).pmt
                     (rate / 12) (years * 12) principal (years * 12 - 1)).2),
               principal := round2 ((App.mortgageState
                     (App.buildMortgageSchedule principal rate years).pmt
                     (rate / 12) (years * 12) principal (years * 12 - 1)).2),
               total := (App.buildMortgageSchedule principal rate years).pmt,
               balance := 0 } := by
  constructor
  · intro row
    simp only [App.buildMortgageSchedule]
    intro hrow
    exact (mortgageState_rows (centMult_round2 _) _ _ _ _ row hrow).1
  · simp only [App.buildMortgageSchedule, Nat.cast_ofNat]
    obtain ⟨k, hk⟩ : ∃ k, years * 12 = k + 1 := ⟨years * 12 - 1, by omega⟩
    rw [hk]
    simp only [Nat.add_sub_cancel]
    exact mortgageState_getLast_full (centMult_round2 _) _ _ k

/-- C10: every row of the schedule — the adjusted final row included — has its
`total` field exactly equal to the level payment, in exact cent arithmetic. -/
theorem mortgage_total_equals_pmt (principal rate : ℚ) (years : ℕ)
    (hp : 0 < principal) (hr : 0 < rate) (hy : 0 < years) :
    ∀ row ∈ (App.buildMortgageSchedule principal rate years).rows,
      row.total = (App.buildMortgageSchedule principal rate years).pmt := by
  intro row
  simp only [App.buildMortgageSchedule]
  intro hrow
  exact (mortgageState_rows (centMult_round2 _) _ _ _ _ row hrow).2

/-- C3, counterexample: with `D0 = 0`, `required = 1/10 > 0` and
`gConst = 1/20 < required`, the Gordon price is defined but equal to `0`,
which is not positive — refuting the claim that it is always finite AND
positive whenever `gConst < required`. -/
theorem gordon_positive_counterexample :
    (App.buildDividendSeries 0 (1/10) (1/20) (1/20) (3/100) 5 10).priceGordon = some 0
    ∧ ¬ (0 : ℚ) < 0 := by
  refine ⟨?_, lt_irrefl 0⟩
  simp only [App.buildDividendSeries]
  rw [if_pos (by norm_num : (1/20 : ℚ) < 1/10)]
  norm_num

/-- C3, amended: for `required > 0`, `priceGordon` is the sentinel exactly
when `gConst ≥ required`; when `gConst < required` it equals
`D0*(1+gConst)/(required - gConst)` (a finite rational), and it is moreover
positive under the additional premises `D0 > 0` and `gConst > -1`. -/
theorem gordon_sentinel_and_formula (D0 required gConst gShort gLong : ℚ)
    (shortYears horizonYears : ℕ) (hR : 0 < required) :
    ((required ≤ gConst →
        (App.buildDividendSeries D0 required gConst gShort gLong
          shortYears horizonYears).priceGordon = none)
    ∧ (gConst < required →
        (App.buildDividendSeries D0 required gConst gShort gLong
          shortYears horizonYears).priceGordon
            = some (D0 * (1 + gConst) / (required - gConst)))
    ∧ (gConst < required → 0 < D0 → -1 < gConst →
        ∃ q, (App.buildDividendSeries D0 required gConst gShort gLong
          shortYears horizonYears).priceGordon = some q ∧ 0 < q)) := by
  refine ⟨?_, ?_, ?_⟩
  · intro h
    simp only [App.buildDividendSeries]
    rw [if_neg (not_lt.mpr h)]
  · intro h
    simp only [App.buildDividendSeries]
    rw [if_pos h]
  · intro h hD hg
    refine ⟨D0 * (1 + gConst) / (required - gConst), ?_, ?_⟩
    · simp only [App.buildDividendSeries]
      rw [if_pos h]
    · exact div_pos (mul_pos hD (by linarith)) (by linarith)

/-- C4: for `required > 0`, the two-stage price is the sentinel exactly when
`gLong ≥ required`, and a sentinel leaves the other fields intact: the
no-growth price is always `D0/required` and the projected series always
consists of the `horizonYears` specified dividend points. -/
theorem two_stage_sentinel_isolation (D0 required gConst gShort gLong : ℚ)
    (shortYears horizonYears : ℕ) (hR : 0 < required) :
    ((App.buildDividendSeries D0 required gConst gShort gLong
        shortYears horizonYears).priceTwoStage = none ↔ required ≤ gLong)
    ∧ (App.buildDividendSeries D0 required gConst gShort gLong
        shortYears horizonYears).priceNoGrowth = D0 / required
    ∧ (App.buildDividendSeries D0 required gConst gShort gLong
        shortYears horizonYears).data.length = horizonYears
    ∧ ∀ k, k < horizonYears →
        (App.buildDividendSeries D0 required gConst gShort gLong
            shortYears horizonYears).data.getD k
            { year := 0, constDiv := 0, constGrow := 0, twoStage := 0 }
          = { year := k + 1, constDiv := D0,
              constGrow := constGrowthAt D0 gConst k,
              twoStage := twoStageAt D0 gShort gLong shortYears k } := by
  refine ⟨?_, ?_, ?_, ?_⟩
  · simp only [App.buildDividendSeries]
    by_cases h : gLong < required
    · rw [if_pos h]
      simp [not_le.mpr h]
    · rw [if_neg h]
      simp [not_lt.mp h]
  · simp [App.buildDividendSeries]
  · simp [App.buildDividendSeries]
  · intro k hk
    simp only [App.buildDividendSeries]
    rw [getD_map_range _ hk]
    unfold constGrowthList twoStageList
    rw [getD_map_range _ hk, getD_map_range _ hk]

/-- C6, counterexample: at `years = 0` (other inputs at the app defaults:
face 100, coupon rate 0.086, yield 0.065, two payments a year) the bond
calculator returns a result with no NaN and no infinity anywhere — the flow
list is empty and `price`, `c`, `r` are the finite values `100`, `4.30`,
`0.0325` — refuting the claim that `years = 0` produces an undefined/NaN
result. -/
theorem bond_degenerate_counterexample :
    jsBuildBondCashFlows 100 (43/500) (13/200) 0 2
      = { flows := [], price := JsNum.fin 100, c := JsNum.fin (43/10),
          r := JsNum.fin (13/400), n := 0 } := by
  simp only [jsBuildBondCashFlows, JsNum.mul, JsNum.div, JsNum.add, JsNum.powInt]
  norm_num

/-- C6, amended: the degenerate inputs are unguarded, and what they produce
is: with `freq = 0` (and positive face, coupon rate and yield) the per-period
coupon `c` and rate `r` are `+Infinity` while the flow list is empty and the
price is the finite value `face`; with `years = 0` (and positive `freq`) the
whole result is finite — empty flows and price `face`; and with `rate = 0`
the mortgage level payment is the non-numeric `NaN` from the `0/0` division. -/
theorem degenerate_inputs_behavior (face couponRate ytm principal : ℚ)
    (years freq myears : ℕ) (hface : 0 < face) (hcr : 0 < couponRate)
    (hytm : 0 < ytm) (hfreq : 0 < freq) (hmy : 0 < myears) :
    ((jsBuildBondCashFlows face couponRate ytm years 0).c = JsNum.inf
      ∧ (jsBuildBondCashFlows face couponRate ytm years 0).r = JsNum.inf
      ∧ (jsBuildBondCashFlows face couponRate ytm years 0).flows = []
      ∧ (jsBuildBondCashFlows face couponRate ytm years 0).price = JsNum.fin face)
    ∧ ((jsBuildBondCashFlows face couponRate ytm 0 freq).flows = []
      ∧ (jsBuildBondCashFlows face couponRate ytm 0 freq).c
          = JsNum.fin (couponRate * face / (freq : ℚ))
      ∧ (jsBuildBondCashFlows face couponRate ytm 0 freq).r
          = JsNum.fin (ytm / (freq : ℚ))
      ∧ (jsBuildBondCashFlows face couponRate ytm 0 freq).price = JsNum.fin face)
    ∧ jsMortgagePmt principal 0 myears = JsNum.nan := by
  refine ⟨?_, ?_, ?_⟩
  · have hcf : 0 < couponRate * face := mul_pos hcr hface
    simp [jsBuildBondCashFlows, JsNum.mul, JsNum.div, JsNum.add, JsNum.powInt, hcf, hytm]
  · have hf : ((freq : ℚ)) ≠ 0 := (Nat.cast_pos.mpr hfreq).ne'
    simp [jsBuildBondCashFlows, JsNum.mul, JsNum.div, JsNum.add, JsNum.powInt, hf]
  · have h1 : (-(((myears * 12 : ℕ) : ℤ))) ≠ 0 := by
      simp
      omega
    have h2 : ¬ (0 : ℤ) < -(((myears * 12 : ℕ) : ℤ)) := by
      simp
    simp [jsMortgagePmt, JsNum.mul, JsNum.div, JsNum.add, JsNum.sub, JsNum.neg,
      JsNum.powInt, JsNum.round2J, h1, h2]

/-- Witness for C1 at the app's default bond inputs. -/
theorem bond_price_and_final_flow_witness :
    0 < 5 ∧ 0 < 2 ∧
    ((App.buildBondCashFlows 100 (43/500) (13/200) 5 2).price
      = (∑ t in Finset.range (5 * 2),
          (App.buildBondCashFlows 100 (43/500) (13/200) 5 2).c
            / (1 + (App.buildBondCashFlows 100 (43/500) (13/200) 5 2).r) ^ (t + 1))
        + 100 / (1 + (App.buildBondCashFlows 100 (43/500) (13/200) 5 2).r) ^ (5 * 2)
    ∧ ∀ k, k < 5 * 2 →
        ((App.buildBondCashFlows 100 (43/500) (13/200) 5 2).flows.getD k
            { period := 0, coupon := 0, other := 0, total := 0 }).total
          = if k + 1 = 5 * 2
            then (App.buildBondCashFlows 100 (43/500) (13/200) 5 2).c + 100
            else (App.buildBondCashFlows 100 (43/500) (13/200) 5 2).c) :=
  ⟨by norm_num, by norm_num,
    bond_price_and_final_flow 100 (43/500) (13/200) 5 2 (by norm_num) (by norm_num)⟩

/-- Witness for C2 at a one-year mortgage. -/
theorem mortgage_rows_reconcile_and_final_zero_witness :
    0 < (1000 : ℚ) ∧ 0 < (3/50 : ℚ) ∧ 0 < 1 ∧
    ((∀ row ∈ (App.buildMortgageSchedule 1000 (3/50) 1).rows,
        row.interest + row.principal = (App.buildMortgageSchedule 1000 (3/50) 1).pmt)
    ∧ (App.buildMortgageSchedule 1000 (3/50) 1).rows.getLast? =
        some { month := 1 * 12,
               interest := (App.buildMortgageSchedule 1000 (3/50) 1).pmt
                 - round2 ((App.mortgageState (App.buildMortgageSchedule 1000 (3/50) 1).pmt
                     ((3/50) / 12) (1 * 12) 1000 (1 * 12 - 1)).2),
               principal := round2 ((App.mortgageState
                     (App.buildMortgageSchedule 1000 (3/50) 1).pmt
                     ((3/50) / 12) (1 * 12) 1000 (1 * 12 - 1)).2),
               total := (App.buildMortgageSchedule 1000 (3/50) 1).pmt,
               balance := 0 }) :=
  ⟨by norm_num, by norm_num, by norm_num,
    mortgage_rows_reconcile_and_final_zero 1000 (3/50) 1
      (by norm_num) (by norm_num) (by norm_num)⟩

/-- Witness for C10 at a one-year mortgage. -/
theorem mortgage_total_equals_pmt_witness :
    0 < (1000 : ℚ) ∧ 0 < (3/50 : ℚ) ∧ 0 < 1 ∧
    ∀ row ∈ (App.buildMortgageSchedule 1000 (3/50) 1).rows,
      row.total = (App.buildMortgageSchedule 1000 (3/50) 1).pmt :=
  ⟨by norm_num, by norm_num, by norm_num,
    mortgage_total_equals_pmt 1000 (3/50) 1 (by norm_num) (by norm_num) (by norm_num)⟩

/-- Witness for the amended C3 at the app's default dividend inputs. -/
theorem gordon_sentinel_and_formula_witness :
    0 < (1/10 : ℚ) ∧
    (((1/10 : ℚ) ≤ 1/20 →
        (App.buildDividendSeries 5 (1/10) (1/20) (1/20) (3/100) 5 10).priceGordon = none)
    ∧ ((1/20 : ℚ) < 1/10 →
        (App.buildDividendSeries 5 (1/10) (1/20) (1/20) (3/100) 5 10).priceGordon
          = some (5 * (1 + 1/20) / (1/10 - 1/20)))
    ∧ ((1/20 : ℚ) < 1/10 → 0 < (5 : ℚ) → -1 < (1/20 : ℚ) →
        ∃ q, (App.buildDividendSeries 5 (1/10) (1/20) (1/20) (3/100) 5 10).priceGordon
          = some q ∧ 0 < q)) :=
  ⟨by norm_num, gordon_sentinel_and_formula 5 (1/10) (1/20) (1/20) (3/100) 5 10 (by norm_num)⟩

/-- Witness for C4 at the app's default dividend inputs. -/
theorem two_stage_sentinel_isolation_witness :
    0 < (1/10 : ℚ) ∧
    (((App.buildDividendSeries 5 (1/10) (1/20) (1/20) (3/100) 5 10).priceTwoStage = none
        ↔ (1/10 : ℚ) ≤ 3/100)
    ∧ (App.buildDividendSeries 5 (1/10) (1/20) (1/20) (3/100) 5 10).priceNoGrowth
        = 5 / (1/10)
    ∧ (App.buildDividendSeries 5 (1/10) (1/20) (1/20) (3/100) 5 10).data.length = 10
    ∧ ∀ k, k < 10 →
        (App.buildDividendSeries 5 (1/10) (1/20) (1/20) (3/100) 5 10).data.getD k
            { year := 0, constDiv := 0, constGrow := 0, twoStage := 0 }
          = { year := k + 1, constDiv := 5,
              constGrow := constGrowthAt 5 (1/20) k,
              twoStage := twoStageAt 5 (1/20) (3/100) 5 k }) :=
  ⟨by norm_num,
    two_stage_sentinel_isolation 5 (1/10) (1/20) (1/20) (3/100) 5 10 (by norm_num)⟩

/-- Witness for C5 with a common growth rate of 5% against a 10% required
return. -/
theorem two_stage_reduces_to_gordon_witness :
    (0 : ℚ) ≤ 5 ∧ 0 < (1/10 : ℚ) ∧ (1/20 : ℚ) < 1/10 ∧
    (App.buildDividendSeries 5 (1/10) (1/20) (1/20) (1/20) 5 10).priceTwoStage
      = (App.buildDividendSeries 5 (1/10) (1/20) (1/20) (1/20) 5 10).priceGordon :=
  ⟨by norm_num, by norm_num, by norm_num,
    two_stage_reduces_to_gordon 5 (1/10) (1/20) 5 10
      (by norm_num) (by norm_num) (by norm_num)⟩

/-- Witness for C7 at the app's default inputs. -/
theorem sequence_lengths_fixed_witness :
    0 < 5 ∧ 0 < 2 ∧ 0 < 30 ∧ 0 < 10 ∧
    ((App.buildBondCashFlows 100 (43/500) (13/200) 5 2).flows.length = 5 * 2
    ∧ (App.buildMortgageSchedule 800000 (3/50) 30).rows.length = 30 * 12
    ∧ (App.buildDividendSeries 5 (1/10) (1/20) (1/20) (3/100) 5 10).data.length = 10) :=
  ⟨by norm_num, by norm_num, by norm_num, by norm_num,
    sequence_lengths_fixed 100 (43/500) (13/200) 800000 (3/50) 5 (1/10) (1/20) (1/20) (3/100)
      5 2 30 5 10 (by norm_num) (by norm_num) (by norm_num) (by norm_num)⟩

/-- Witness for the amended C6 at the app's default inputs. -/
theorem degenerate_inputs_behavior_witness :
    0 < (100 : ℚ) ∧ 0 < (43/500 : ℚ) ∧ 0 < (13/200 : ℚ) ∧ 0 < 2 ∧ 0 < 30 ∧
    (((jsBuildBondCashFlows 100 (43/500) (13/200) 5 0).c = JsNum.inf
      ∧ (jsBuildBondCashFlows 100 (43/500) (13/200) 5 0).r = JsNum.inf
      ∧ (jsBuildBondCashFlows 100 (43/500) (13/200) 5 0).flows = []
      ∧ (jsBuildBondCashFlows 100 (43/500) (13/200) 5 0).price = JsNum.fin 100)
    ∧ ((jsBuildBondCashFlows 100 (43/500) (13/200) 0 2).flows = []
      ∧ (jsBuildBondCashFlows 100 (43/500) (13/200) 0 2).c
          = JsNum.fin (43/500 * 100 / ((2 : ℕ) : ℚ))
      ∧ (jsBuildBondCashFlows 100 (43/500) (13/200) 0 2).r
          = JsNum.fin (13/200 / ((2 : ℕ) : ℚ))
      ∧ (jsBuildBondCashFlows 100 (43/500) (13/200) 0 2).price = JsNum.fin 100)
    ∧ jsMortgagePmt 800000 0 30 = JsNum.nan) :=
  ⟨by norm_num, by norm_num, by norm_num, by norm_num, by norm_num,
    degenerate_inputs_behavior 100 (43/500) (13/200) 800000 5 2 30
      (by norm_num) (by norm_num) (by norm_num) (by norm_num) (by norm_num)⟩
